import Mathlib

/-!
Verification of the BQSKit tutorial repository (a Jupyter notebook,
`1_comping_with_bqskit.ipynb`, and a `README.md`).

The development embeds, directly from the source files:
  * the literal data the notebook instantiates (the `coupling_graph` edge
    list, the `toffoli` unitary matrix, the recorded console outputs), and
  * the notebook's code cells as a small Python abstract syntax, together
    with an interpreter in which every third-party library call is an
    uninterpreted total function supplied by a `Library` structure.

All definitions are executable; the theorems at the end settle the claims.
-/

/-! ## Literal data from the notebook -/

/-- The `coupling_graph` edge-list literal of the topology-mapping cell
(execution count 11) of the notebook, in source order. -/
def coupling_graph : List (Nat × Nat) :=
  [(0, 1), (0, 2), (0, 3), (0, 4), (0, 5), (0, 6), (0, 7),
   (8, 9), (8, 10), (8, 11), (8, 12), (8, 13), (8, 14), (8, 15),
   (0, 8)]

/-- The edge set printed in the recorded `CouplingGraph` console output of
the chain-connectivity circuits.  The identical text is recorded three
times in the notebook: as the input circuit's "Logical Connectivity", and
as the "Connectivity" of the two default-model compilations. -/
def chainConnOutput : List (Nat × Nat) :=
  [(0, 1), (9, 10), (13, 14), (1, 2), (10, 11), (3, 4), (12, 13), (2, 3),
   (6, 7), (4, 5), (8, 9), (11, 12), (5, 6), (14, 15), (7, 8)]

/-- The edge set printed in the recorded `CouplingGraph` console output of
the topology-mapping cell (the cell that passes `coupling_graph` to
`MachineModel(16, coupling_graph=coupling_graph)`). -/
def starConnOutput : List (Nat × Nat) :=
  [(0, 1), (0, 7), (8, 14), (0, 4), (0, 3), (8, 10), (0, 6), (8, 13),
   (0, 2), (8, 9), (0, 5), (8, 12), (0, 8), (8, 15), (8, 11)]

/-- The literal 8x8 integer matrix named `toffoli` in the synthesis cell
(execution count 13), row by row as written in the source. -/
def toffoli : List (List Int) :=
  [[1, 0, 0, 0, 0, 0, 0, 0],
   [0, 1, 0, 0, 0, 0, 0, 0],
   [0, 0, 1, 0, 0, 0, 0, 0],
   [0, 0, 0, 1, 0, 0, 0, 0],
   [0, 0, 0, 0, 1, 0, 0, 0],
   [0, 0, 0, 0, 0, 1, 0, 0],
   [0, 0, 0, 0, 0, 0, 0, 1],
   [0, 0, 0, 0, 0, 0, 1, 0]]

/-! ## Edge-set helpers -/

/-- Order an edge with the smaller endpoint first. -/
def normEdge (e : Nat × Nat) : Nat × Nat :=
  if e.1 ≤ e.2 then e else (e.2, e.1)

/-- Two edge lists denote the same set of unordered edges. -/
def sameEdgeSet (a b : List (Nat × Nat)) : Bool :=
  (a.map normEdge).all (fun e => (b.map normEdge).contains e) &&
  (b.map normEdge).all (fun e => (a.map normEdge).contains e)

/-- Adjacency in an undirected graph given by an edge list. -/
def adjacentB (g : List (Nat × Nat)) (a b : Nat) : Bool :=
  g.any (fun e => (e.1 == a && e.2 == b) || (e.1 == b && e.2 == a))

/-- One step of reachability expansion over the 16 possible vertices. -/
def expandOnce (g : List (Nat × Nat)) (s : List Nat) : List Nat :=
  (List.range 16).filter (fun v => s.contains v || s.any (fun u => adjacentB g u v))

/-- Vertices reachable from vertex 0 in at most `n` steps. -/
def reach16 (g : List (Nat × Nat)) : Nat → List Nat
  | 0 => [0]
  | n + 1 => expandOnce g (reach16 g n)

/-- The graph `g` connects all 16 vertices: every vertex is reachable from 0. -/
def connected16 (g : List (Nat × Nat)) : Bool :=
  (List.range 16).all (fun v => (reach16 g 16).contains v)

/-- The two-star edge list described in the prose: a center-0 star over
1..7, a center-8 star over 9..15, and the single link (0, 8). -/
def twoStarEdges : List (Nat × Nat) :=
  ((List.range 7).map (fun i => (0, i + 1))) ++
  ((List.range 7).map (fun j => (8, j + 9))) ++ [(0, 8)]

/-! ## Matrix helpers for the Toffoli literal -/

/-- The 8x8 identity matrix. -/
def identity8 : List (List Int) :=
  (List.range 8).map (fun i => (List.range 8).map (fun j => if i = j then 1 else 0))

/-- Column `j` of an 8x8 matrix. -/
def columnOf (m : List (List Int)) (j : Nat) : List Int :=
  m.map (fun row => row.getD j 0)

/-- Transpose of an 8x8 matrix. -/
def transposeM (m : List (List Int)) : List (List Int) :=
  (List.range 8).map (fun j => columnOf m j)

/-- Dot product of two integer vectors. -/
def dotI (xs ys : List Int) : Int :=
  (List.zip xs ys).foldl (fun acc p => acc + p.1 * p.2) 0

/-- Product of two 8x8 matrices. -/
def matMul8 (a b : List (List Int)) : List (List Int) :=
  a.map (fun row => (List.range 8).map (fun j => dotI row (columnOf b j)))

/-- Every entry of the matrix is 0 or 1. -/
def isZeroOneM (m : List (List Int)) : Bool :=
  m.all (fun r => r.all (fun x => x == 0 || x == 1))

/-- Every row of the matrix holds exactly one 1. -/
def oneOnePerRow (m : List (List Int)) : Bool :=
  m.all (fun r => (r.filter (fun x => x == 1)).length == 1)

/-! ## Recorded gate-count outputs and gate sets -/

/-- The gate set built for the Rigetti-like example, by class name. -/
def rigettiGateSet : List String := ["CZGate", "RZGate", "SXGate"]

/-- The recorded gate-count dictionary of the Rigetti-like compilation. -/
def rigettiCounts : List (String × Nat) :=
  [("SqrtXGate", 1016), ("CZGate", 246), ("RZGate", 1524)]

/-- The `honeywell_like_gate_set` literal, by class name. -/
def honeywellGateSet : List String := ["ZZGate", "RZGate", "SXGate"]

/-- The recorded gate-count dictionary of the Honeywell-like compilation. -/
def honeywellCounts : List (String × Nat) :=
  [("SqrtXGate", 996), ("ZZGate", 241), ("RZGate", 1494)]

/-- The `custom_gate_set` literal, by class name. -/
def customGateSet : List String := ["RYYGate", "RZGate", "SXGate"]

/-- The recorded gate-count dictionary of the custom-gate-set compilation. -/
def customCounts : List (String × Nat) :=
  [("RYYGate", 142), ("SqrtXGate", 600), ("RZGate", 900)]

/-- The `cirq_gate_set` literal (multiple entangling gates), by class name. -/
def cirqGateSet : List String :=
  ["SqrtISwapGate", "SycamoreGate", "CZGate", "RZGate", "SXGate"]

/-- The recorded gate-count dictionary of the `cirq_gate_set` compilation. -/
def cirqCounts : List (String × Nat) :=
  [("SqrtXGate", 1012), ("CZGate", 245), ("RZGate", 1518)]

/-- The class `SXGate` prints as `SqrtXGate` in gate-count dictionaries;
every other gate class prints under its own name. -/
def printedName (s : String) : String :=
  if s = "SXGate" then "SqrtXGate" else s

/-- The names in a printed gate-count dictionary all come from the gate
set (compared under `printedName`). -/
def countsWithinGateSet (counts : List (String × Nat)) (gs : List String) : Bool :=
  counts.all (fun p => (gs.map printedName).contains p.1)

/-! ## README installation blocks -/

/-- The "Linux and Macs with an Intel chip" shell block of the README,
as (prompt, command) pairs in source order. -/
def linuxIntelSetup : List (String × String) :=
  [("$", "python3 -m venv TUTORIAL"),
   ("$", "source TUTORIAL/bin/activate"),
   ("(TUTORIAL) $", "python -m pip install --upgrade pip"),
   ("(TUTORIAL) $", "python -m pip install jupyter openfermion"),
   ("(TUTORIAL) $", "python -m pip install --pre \x27bqskit[ext]\x27")]

/-- The "Macs with an M1 chip" shell block of the README. -/
def m1MacSetup : List (String × String) :=
  [("(base) $", "conda create -n TUTORIAL python=3.10"),
   ("(TUTORIAL) $", "conda activate TUTORIAL"),
   ("(TUTORIAL) $", "python -m pip install --upgrade pip"),
   ("(TUTORIAL) $", "python -m pip install jupyter openfermion"),
   ("(TUTORIAL) $", "python -m pip install --pre \x27bqskit[ext]\x27")]

/-- The "Windows" shell block of the README. -/
def windowsSetup : List (String × String) :=
  [("$", "python3 -m venv TUTORIAL"),
   ("$", "TUTORIAL\\Scripts\\activate"),
   ("(TUTORIAL) $", "python -m pip install --upgrade pip"),
   ("(TUTORIAL) $", "python -m pip install jupyter openfermion"),
   ("(TUTORIAL) $", "python -m pip install --pre \x27bqskit[ext]\x27")]

/-- The commands of a block that are package installations (they start
with `python -m pip install`), in order. -/
def installSeq (b : List (String × String)) : List String :=
  (b.map Prod.snd).filter (fun c => List.isPrefixOf "python -m pip install".data c.data)

/-! ## A Python abstract syntax for the notebook's code cells -/

/-- Python expressions, as they occur in the notebook's code cells. -/
inductive PyExpr where
  | name (s : String)
  | strLit (s : String)
  | intLit (n : Int)
  | floatLit (text : String)
  | listLit (xs : List PyExpr)
  | tupleLit (xs : List PyExpr)
  | setLit (xs : List PyExpr)
  | attr (e : PyExpr) (field : String)
  | call (f : PyExpr) (args : List PyExpr) (kwargs : List (String × PyExpr))

/-- Python statements.  Loops and conditionals are part of the syntax so
that their absence from the notebook is a checkable fact, not a modelling
assumption. -/
inductive PyStmt where
  | importStmt (module : String) (names : List String)
  | assign (target : String) (e : PyExpr)
  | exprStmt (e : PyExpr)
  | funcDef (fname : String) (params : List String) (body : List PyStmt)
  | ret (e : PyExpr)
  | whileLoop (cond : PyExpr) (body : List PyStmt)
  | forLoop (var : String) (iter : PyExpr) (body : List PyStmt)
  | ifStmt (cond : PyExpr) (thn els : List PyStmt)

/-! ## Runtime values and the uninterpreted library -/

/-- Runtime values: Python literals the notebook builds itself, plus
opaque results of third-party library calls (`vext`). -/
inductive Value where
  | vnone
  | vstr (s : String)
  | vint (n : Int)
  | vfloat (text : String)
  | vlist (xs : List Value)
  | vtuple (xs : List Value)
  | vset (xs : List Value)
  | vext (tag : String) (args : List Value) (kwargs : List (String × Value))

/-- An interpretation of the third-party libraries: importing a name,
applying a callable, and reading an attribute are arbitrary total
functions.  The notebook's own behavior is whatever is provable for
every such interpretation. -/
structure Library where
  imported : String → Value
  apply : Value → List Value → List (String × Value) → Value
  attr : Value → String → Value

/-- The free (term-model) interpretation: every library operation returns
a syntax tree recording exactly how it was obtained. -/
def freeLib : Library where
  imported n := .vext "import" [.vstr n] []
  apply f a k := .vext "apply" (f :: a) k
  attr v a := .vext "attr" [v, .vstr a] []

abbrev Env := List (String × Value)
abbrev Defs := List (String × (List String × List PyStmt))

/-- Assoc-list lookup for environments. -/
def lookupEnv : Env → String → Option Value
  | [], _ => none
  | (k, v) :: rest, s => if k = s then some v else lookupEnv rest s

/-- Assoc-list lookup for the table of user-defined functions. -/
def lookupDef : Defs → String → Option (List String × List PyStmt)
  | [], _ => none
  | (k, v) :: rest, s => if k = s then some v else lookupDef rest s

/-- Bind the names of a `from module import names` statement, each to the
library object of that name. -/
def bindImports (lib : Library) (names : List String) (env : Env) : Env :=
  names.foldl (fun e n => (n, lib.imported n) :: e) env

mutual

/-- Evaluate an expression.  `fuel` bounds the recursion depth; every
recursive step consumes one unit. -/
def evalExpr (fuel : Nat) (lib : Library) (env : Env) (defs : Defs) :
    PyExpr → Option Value :=
  fun e =>
  match fuel with
  | 0 => none
  | f + 1 =>
    match e with
    | .name s => lookupEnv env s
    | .strLit s => some (.vstr s)
    | .intLit n => some (.vint n)
    | .floatLit t => some (.vfloat t)
    | .listLit xs => (evalExprs f lib env defs xs).map .vlist
    | .tupleLit xs => (evalExprs f lib env defs xs).map .vtuple
    | .setLit xs => (evalExprs f lib env defs xs).map .vset
    | .attr e a => (evalExpr f lib env defs e).map (fun v => lib.attr v a)
    | .call (.name s) args kwargs =>
      match lookupDef defs s with
      | some (params, body) =>
        if kwargs.isEmpty then
          match evalExprs f lib env defs args with
          | some avs =>
            if params.length = avs.length then
              callBody f lib (List.zip params avs ++ env) defs body
            else none
          | none => none
        else none
      | none =>
        match lookupEnv env s, evalExprs f lib env defs args,
              evalKwargs f lib env defs kwargs with
        | some fv, some avs, some kvs => some (lib.apply fv avs kvs)
        | _, _, _ => none
    | .call fe args kwargs =>
      match evalExpr f lib env defs fe, evalExprs f lib env defs args,
            evalKwargs f lib env defs kwargs with
      | some fv, some avs, some kvs => some (lib.apply fv avs kvs)
      | _, _, _ => none

/-- Evaluate a list of expressions left to right. -/
def evalExprs (fuel : Nat) (lib : Library) (env : Env) (defs : Defs) :
    List PyExpr → Option (List Value) :=
  fun es =>
  match fuel with
  | 0 => none
  | f + 1 =>
    match es with
    | [] => some []
    | e :: rest =>
      match evalExpr f lib env defs e, evalExprs f lib env defs rest with
      | some v, some vs => some (v :: vs)
      | _, _ => none

/-- Evaluate keyword arguments left to right. -/
def evalKwargs (fuel : Nat) (lib : Library) (env : Env) (defs : Defs) :
    List (String × PyExpr) → Option (List (String × Value)) :=
  fun es =>
  match fuel with
  | 0 => none
  | f + 1 =>
    match es with
    | [] => some []
    | (k, e) :: rest =>
      match evalExpr f lib env defs e, evalKwargs f lib env defs rest with
      | some v, some vs => some ((k, v) :: vs)
      | _, _ => none

/-- Execute the body of a user-defined function: assignments bind local
names, `return` yields the result, falling off the end yields `None`. -/
def callBody (fuel : Nat) (lib : Library) (env : Env) (defs : Defs) :
    List PyStmt → Option Value :=
  fun stmts =>
  match fuel with
  | 0 => none
  | f + 1 =>
    match stmts with
    | [] => some .vnone
    | .ret e :: _ => evalExpr f lib env defs e
    | .assign t e :: rest =>
      match evalExpr f lib env defs e with
      | some v => callBody f lib ((t, v) :: env) defs rest
      | none => none
    | .exprStmt e :: rest =>
      match evalExpr f lib env defs e with
      | some _ => callBody f lib env defs rest
      | none => none
    | .importStmt _ names :: rest => callBody f lib (bindImports lib names env) defs rest
    | _ :: _ => none

end

/-- Execute one top-level statement of a cell.  Loops, conditionals and
stray `return`s are outside the straight-line fragment and fail. -/
def execStmt (fuel : Nat) (lib : Library) (env : Env) (defs : Defs) :
    PyStmt → Option (Env × Defs)
  | .importStmt _ names => some (bindImports lib names env, defs)
  | .assign t e => (evalExpr fuel lib env defs e).map (fun v => ((t, v) :: env, defs))
  | .exprStmt e => (evalExpr fuel lib env defs e).map (fun _ => (env, defs))
  | .funcDef n ps body => some (env, (n, (ps, body)) :: defs)
  | _ => none

/-- Execute the statements of one cell in order. -/
def execStmts (fuel : Nat) (lib : Library) (env : Env) (defs : Defs) :
    List PyStmt → Option (Env × Defs)
  | [] => some (env, defs)
  | s :: rest =>
    match execStmt fuel lib env defs s with
    | some (e2, d2) => execStmts fuel lib e2 d2 rest
    | none => none

/-- Execute a list of cells in order. -/
def execCells (fuel : Nat) (lib : Library) (env : Env) (defs : Defs) :
    List (List PyStmt) → Option (Env × Defs)
  | [] => some (env, defs)
  | c :: rest =>
    match execStmts fuel lib env defs c with
    | some (e2, d2) => execCells fuel lib e2 d2 rest
    | none => none

/-- The initial environment: the builtin `print` is in scope. -/
def initEnv (lib : Library) : Env := [("print", lib.imported "print")]

/-! ## The notebook's code cells, transcribed -/

/-- Code cell 1 (execution count 1): load a circuit from a qasm file. -/
def cellLoad : List PyStmt :=
  [.importStmt "bqskit" ["Circuit"],
   .assign "circuit"
     (.call (.attr (.name "Circuit") "from_file") [.strLit "qasm/heisenberg16.qasm"] [])]

/-- Code cell 2 (execution count 2): import a circuit from Qiskit and
load it into BQSKit, rebinding `circuit`. -/
def cellQiskitImport : List PyStmt :=
  [.importStmt "qiskit" ["QuantumCircuit"],
   .assign "qc"
     (.call (.attr (.name "QuantumCircuit") "from_qasm_file")
       [.strLit "qasm/heisenberg16.qasm"] []),
   .importStmt "bqskit.ext" ["qiskit_to_bqskit"],
   .assign "circuit" (.call (.name "qiskit_to_bqskit") [.name "qc"] [])]

/-- Code cell 3 (execution count 3): print circuit statistics. -/
def cellStats : List PyStmt :=
  [.exprStmt (.call (.name "print") [.strLit "Circuit Statistics"] []),
   .exprStmt (.call (.name "print")
     [.strLit "Gate Counts:", .attr (.name "circuit") "gate_counts"] []),
   .exprStmt (.call (.name "print")
     [.strLit "Logical Connectivity:", .attr (.name "circuit") "coupling_graph"] [])]

/-- Code cell 4 (execution count 4): default compilation. -/
def cellCompile : List PyStmt :=
  [.importStmt "bqskit" ["compile"],
   .assign "out_circuit" (.call (.name "compile") [.name "circuit"] []),
   .exprStmt (.call (.name "print") [.strLit "Compiled Circuit Statistics"] []),
   .exprStmt (.call (.name "print")
     [.strLit "Gate Counts:", .attr (.name "out_circuit") "gate_counts"] []),
   .exprStmt (.call (.name "print")
     [.strLit "Connectivity:", .attr (.name "out_circuit") "coupling_graph"] [])]

/-- Code cell 5 (execution count 5): compilation at optimization level 2. -/
def cellOptLevel : List PyStmt :=
  [.assign "out_circuit"
     (.call (.name "compile") [.name "circuit"] [("optimization_level", .intLit 2)]),
   .exprStmt (.call (.name "print") [.strLit "Compiled Circuit Statistics"] []),
   .exprStmt (.call (.name "print")
     [.strLit "Gate Counts:", .attr (.name "out_circuit") "gate_counts"] []),
   .exprStmt (.call (.name "print")
     [.strLit "Connectivity:", .attr (.name "out_circuit") "coupling_graph"] [])]

/-- Code cell 6 (execution count 6): the exporting cell.  It saves
`circuit` to `heisenberg16_out.qasm` and converts `circuit` with
`bqskit_to_qiskit`. -/
def cellExport : List PyStmt :=
  [.exprStmt (.call (.attr (.name "circuit") "save") [.strLit "heisenberg16_out.qasm"] []),
   .importStmt "bqskit.ext" ["bqskit_to_qiskit"],
   .assign "qc" (.call (.name "bqskit_to_qiskit") [.name "circuit"] [])]

/-- Code cell 7 (execution count 7): Rigetti-like gate set, a machine
model over `circuit.num_qudits` qubits, and a targeted compilation. -/
def cellRigetti : List PyStmt :=
  [.importStmt "bqskit.ir.gates" ["CZGate", "RZGate", "SXGate"],
   .assign "gate_set"
     (.setLit [.call (.name "CZGate") [] [], .call (.name "RZGate") [] [],
               .call (.name "SXGate") [] []]),
   .importStmt "bqskit" ["MachineModel"],
   .assign "model"
     (.call (.name "MachineModel") [.attr (.name "circuit") "num_qudits"]
       [("gate_set", .name "gate_set")]),
   .assign "out_circuit"
     (.call (.name "compile") [.name "circuit"] [("model", .name "model")]),
   .exprStmt (.call (.name "print")
     [.strLit "Gate Counts:", .attr (.name "out_circuit") "gate_counts"] [])]

/-- The parameter list of the notebook's `compile_to_gateset` definition. -/
def compileToGatesetParams : List String := ["circuit", "gate_set"]

/-- The two-statement body of the notebook's `compile_to_gateset`
definition (code cell 8):
`model = MachineModel(circuit.num_qudits, gate_set=gate_set)` then
`return compile(circuit, model=model)`. -/
def compileToGatesetBody : List PyStmt :=
  [.assign "model"
     (.call (.name "MachineModel") [.attr (.name "circuit") "num_qudits"]
       [("gate_set", .name "gate_set")]),
   .ret (.call (.name "compile") [.name "circuit"] [("model", .name "model")])]

/-- Code cell 8 (execution count 8): define `compile_to_gateset` and use
it on a Honeywell-like gate set. -/
def cellHoneywell : List PyStmt :=
  [.funcDef "compile_to_gateset" compileToGatesetParams compileToGatesetBody,
   .importStmt "bqskit.ir.gates" ["ZZGate"],
   .assign "honeywell_like_gate_set"
     (.setLit [.call (.name "ZZGate") [] [], .call (.name "RZGate") [] [],
               .call (.name "SXGate") [] []]),
   .assign "out_circuit"
     (.call (.name "compile_to_gateset")
       [.name "circuit", .name "honeywell_like_gate_set"] []),
   .exprStmt (.call (.name "print") [.attr (.name "out_circuit") "gate_counts"] [])]

/-- Code cell 9 (execution count 9): a completely custom gate set. -/
def cellCustom : List PyStmt :=
  [.importStmt "bqskit.ir.gates" ["RYYGate"],
   .assign "custom_gate_set"
     (.setLit [.call (.name "RYYGate") [] [], .call (.name "RZGate") [] [],
               .call (.name "SXGate") [] []]),
   .assign "out_circuit"
     (.call (.name "compile_to_gateset") [.name "circuit", .name "custom_gate_set"] []),
   .exprStmt (.call (.name "print") [.attr (.name "out_circuit") "gate_counts"] [])]

/-- Code cell 10 (execution count 10): a gate set with multiple
entangling gates. -/
def cellCirq : List PyStmt :=
  [.importStmt "bqskit.ir.gates" ["SqrtISwapGate", "SycamoreGate"],
   .assign "cirq_gate_set"
     (.setLit [.call (.name "SqrtISwapGate") [] [], .call (.name "SycamoreGate") [] [],
               .call (.name "CZGate") [] [], .call (.name "RZGate") [] [],
               .call (.name "SXGate") [] []]),
   .assign "out_circuit"
     (.call (.name "compile_to_gateset") [.name "circuit", .name "cirq_gate_set"] []),
   .exprStmt (.call (.name "print") [.attr (.name "out_circuit") "gate_counts"] [])]

/-- Code cell 11 (execution count 11): the topology-mapping cell.  The
edge-list literal is exactly `coupling_graph` (same pairs, same order). -/
def cellTopology : List PyStmt :=
  [.assign "coupling_graph"
     (.listLit (coupling_graph.map (fun e => .tupleLit [.intLit e.1, .intLit e.2]))),
   .assign "model"
     (.call (.name "MachineModel") [.intLit 16]
       [("coupling_graph", .name "coupling_graph")]),
   .assign "out_circuit"
     (.call (.name "compile") [.name "circuit"] [("model", .name "model")]),
   .exprStmt (.call (.name "print")
     [.strLit "Gate Counts:", .attr (.name "out_circuit") "gate_counts"] []),
   .exprStmt (.call (.name "print")
     [.strLit "Connectivity:", .attr (.name "out_circuit") "coupling_graph"] [])]

/-- Code cell 12 (execution count 12): imports of the pre-built models. -/
def cellPrebuilt : List PyStmt :=
  [.importStmt "bqskit.ext" ["H1_1Model"],
   .importStmt "bqskit.ext" ["H1_2Model"],
   .importStmt "bqskit.ext" ["Sycamore23Model"],
   .importStmt "bqskit.ext" ["SycamoreModel"],
   .importStmt "bqskit.ext" ["model_from_backend"],
   .importStmt "bqskit.ext" ["Aspen11Model"],
   .importStmt "bqskit.ext" ["AspenM2Model"]]

/-- Code cell 13 (execution count 13): the `toffoli` literal (exactly the
matrix `toffoli`, row by row) synthesized at optimization level 3. -/
def cellToffoli : List PyStmt :=
  [.assign "toffoli"
     (.listLit (toffoli.map (fun row => .listLit (row.map (fun x => .intLit x))))),
   .assign "toffoli_circuit"
     (.call (.name "compile") [.name "toffoli"] [("optimization_level", .intLit 3)]),
   .exprStmt (.call (.name "print") [.attr (.name "toffoli_circuit") "gate_counts"] [])]

/-- Code cell 14 (no recorded execution): block size 4. -/
def cellBlock4 : List PyStmt :=
  [.assign "out_circuit"
     (.call (.name "compile") [.name "circuit"] [("max_synthesis_size", .intLit 4)]),
   .exprStmt (.call (.name "print")
     [.strLit "Gate Counts:", .attr (.name "out_circuit") "gate_counts"] [])]

/-- Code cell 15 (no recorded execution): block size 2. -/
def cellBlock2 : List PyStmt :=
  [.assign "out_circuit"
     (.call (.name "compile") [.name "circuit"] [("max_synthesis_size", .intLit 2)]),
   .exprStmt (.call (.name "print")
     [.strLit "Gate Counts:", .attr (.name "out_circuit") "gate_counts"] [])]

/-- Code cell 16 (no recorded execution): high-error compilation. -/
def cellHighError : List PyStmt :=
  [.assign "out_circuit"
     (.call (.name "compile") [.name "circuit"]
       [("synthesis_epsilon", .floatLit "0.5"), ("error_threshold", .intLit 0)])]

/-- Code cell 17 (no recorded execution): verified compilation. -/
def cellVerified : List PyStmt :=
  [.assign "out_circuit"
     (.call (.name "compile") [.name "circuit"]
       [("synthesis_epsilon", .floatLit "1e-3"), ("error_threshold", .floatLit "5e-2")]),
   .exprStmt (.call (.name "print") [.attr (.name "out_circuit") "gate_counts"] [])]

/-- All seventeen code cells of the notebook, in document order. -/
def notebookCells : List (List PyStmt) :=
  [cellLoad, cellQiskitImport, cellStats, cellCompile, cellOptLevel, cellExport,
   cellRigetti, cellHoneywell, cellCustom, cellCirq, cellTopology, cellPrebuilt,
   cellToffoli, cellBlock4, cellBlock2, cellHighError, cellVerified]

/-- Run the first `k` code cells of the notebook under a library
interpretation. -/
def runCells (lib : Library) (k : Nat) : Option (Env × Defs) :=
  execCells 100 lib (initEnv lib) [] (notebookCells.take k)

/-- Run the whole notebook in order. -/
def runNotebook (lib : Library) : Option (Env × Defs) :=
  execCells 100 lib (initEnv lib) [] notebookCells

/-- The value a name holds after the first `k` cells ran. -/
def valueAfter (lib : Library) (k : Nat) (x : String) : Option Value :=
  (runCells lib k).bind (fun p => lookupEnv p.1 x)

/-! ## Syntactic checks over the notebook's code -/

mutual

/-- A statement is straight-line: it is not a loop or a conditional, and
any function it defines has a straight-line body. -/
def stmtStraight : PyStmt → Bool
  | .whileLoop _ _ => false
  | .forLoop _ _ _ => false
  | .ifStmt _ _ _ => false
  | .funcDef _ _ body => stmtsStraight body
  | _ => true

/-- Every statement of the list is straight-line. -/
def stmtsStraight : List PyStmt → Bool
  | [] => true
  | s :: rest => stmtStraight s && stmtsStraight rest

end

mutual

/-- The expression mentions the name `t` somewhere. -/
def exprMentions (t : String) : PyExpr → Bool
  | .name s => s == t
  | .strLit _ => false
  | .intLit _ => false
  | .floatLit _ => false
  | .listLit xs => exprsMention t xs
  | .tupleLit xs => exprsMention t xs
  | .setLit xs => exprsMention t xs
  | .attr e _ => exprMentions t e
  | .call f args kwargs =>
    exprMentions t f || exprsMention t args || kwexprsMention t kwargs

/-- Some expression of the list mentions `t`. -/
def exprsMention (t : String) : List PyExpr → Bool
  | [] => false
  | e :: rest => exprMentions t e || exprsMention t rest

/-- Some keyword-argument value mentions `t`. -/
def kwexprsMention (t : String) : List (String × PyExpr) → Bool
  | [] => false
  | (_, e) :: rest => exprMentions t e || kwexprsMention t rest

end

mutual

/-- The statement mentions the name `t` in one of its expressions. -/
def stmtMentions (t : String) : PyStmt → Bool
  | .importStmt _ _ => false
  | .assign _ e => exprMentions t e
  | .exprStmt e => exprMentions t e
  | .funcDef _ _ body => stmtsMention t body
  | .ret e => exprMentions t e
  | .whileLoop c body => exprMentions t c || stmtsMention t body
  | .forLoop _ it body => exprMentions t it || stmtsMention t body
  | .ifStmt c thn els => exprMentions t c || stmtsMention t thn || stmtsMention t els

/-- Some statement of the list mentions `t`. -/
def stmtsMention (t : String) : List PyStmt → Bool
  | [] => false
  | s :: rest => stmtMentions t s || stmtsMention t rest

end

/-- No function defined in the list of statements mentions its own name
in its body (no recursion). -/
def defsNonRecursive (stmts : List PyStmt) : Bool :=
  stmts.all (fun s =>
    match s with
    | .funcDef n _ body => !(stmtsMention n body)
    | _ => true)

/-- The statement is a top-level assignment to the name `t`. -/
def assignsTo (t : String) : PyStmt → Bool
  | .assign x _ => x == t
  | _ => false

/-- The expression is a direct call of `compile` or of the notebook's
`compile_to_gateset`. -/
def isCompileInvocation : PyExpr → Bool
  | .call (.name "compile") _ _ => true
  | .call (.name "compile_to_gateset") _ _ => true
  | _ => false

/-- Every top-level assignment whose right-hand side is a compile
invocation binds one of the fresh names `out_circuit`, `toffoli_circuit`. -/
def compileResultsFreshlyBound : PyStmt → Bool
  | .assign t e =>
    !(isCompileInvocation e) || (t == "out_circuit" || t == "toffoli_circuit")
  | _ => true

/-- The statement is a function definition. -/
def isFuncDef : PyStmt → Bool
  | .funcDef _ _ _ => true
  | _ => false

/-- Under the free interpretation, the value is the result of applying
the library's `compile` function. -/
def isCompileApp : Value → Bool
  | .vext "apply" (.vext "import" [.vstr "compile"] [] :: _) _ => true
  | _ => false

/-- Under the free interpretation, the value the Qiskit-import cell binds
to `circuit`: the `qiskit_to_bqskit` conversion of the circuit read by
`QuantumCircuit.from_qasm_file`. -/
def inputCircuitVal : Value :=
  freeLib.apply (freeLib.imported "qiskit_to_bqskit")
    [freeLib.apply (freeLib.attr (freeLib.imported "QuantumCircuit") "from_qasm_file")
      [.vstr "qasm/heisenberg16.qasm"] []] []

/-! ## The authored function and its specification -/

/-- The globals `compile_to_gateset`'s body reads: the imported
`MachineModel` and `compile`, as bound by the earlier cells. -/
def gatesetGlobals (lib : Library) : Env :=
  [("MachineModel", lib.imported "MachineModel"), ("compile", lib.imported "compile")]

/-- `compile_to_gateset` as the source defines it: the notebook's
function body, executed by the interpreter on arguments `c` and `gs`. -/
def compile_to_gateset (lib : Library) (c gs : Value) : Option Value :=
  callBody 100 lib ([("circuit", c), ("gate_set", gs)] ++ gatesetGlobals lib) []
    compileToGatesetBody

/-- Modelled from the spec's words: `compile_to_gateset(c, g)` is exactly
`compile(c, model=MachineModel(c.num_qudits, gate_set=g))`, one `compile`
call on one `MachineModel` call whose qudit count is read from `c`. -/
def compileToGatesetSpec (lib : Library) (c gs : Value) : Value :=
  lib.apply (lib.imported "compile") [c]
    [("model",
      lib.apply (lib.imported "MachineModel") [lib.attr c "num_qudits"]
        [("gate_set", gs)])]

/-! ## Claim theorems -/

/-- Claim C1 (code_bug evidence): what the exporting cell actually does.
The exporting cell is the sixth code cell; its first statement saves the
name `circuit` to the file `heisenberg16_out.qasm`.  Running the notebook
in order under the free library interpretation, the value of `circuit` at
that point is the input circuit produced by `qiskit_to_bqskit` in the
Qiskit-import cell — it is not a result of any `compile` call — while the
compiled results are bound to `out_circuit`.  So the circuit saved and
converted with `bqskit_to_qiskit` is the uncompiled input, contrary to the
claim that it is a compiled output circuit. -/
theorem exportCellSavesUncompiledInput :
    notebookCells[5]? = some cellExport
    ∧ cellExport.head? = some (.exprStmt (.call (.attr (.name "circuit") "save")
        [.strLit "heisenberg16_out.qasm"] []))
    ∧ valueAfter freeLib 6 "circuit" = some inputCircuitVal
    ∧ (valueAfter freeLib 6 "circuit").map isCompileApp = some false
    ∧ (valueAfter freeLib 6 "out_circuit").map isCompileApp = some true :=
  ⟨rfl, rfl, rfl, rfl, rfl⟩

/-- Claim C2: `compile_to_gateset(c, g)`, the only function authored in
the repository, returns exactly
`compile(c, model=MachineModel(c.num_qudits, gate_set=g))` for every
library interpretation and all arguments; its body is the two transcribed
statements, it is straight-line, and it is the notebook's only function
definition. -/
theorem compileToGatesetRefinesSpec :
    (∀ (lib : Library) (c gs : Value),
        compile_to_gateset lib c gs = some (compileToGatesetSpec lib c gs))
    ∧ compileToGatesetBody.length = 2
    ∧ stmtsStraight compileToGatesetBody = true
    ∧ (notebookCells.map (fun cl => (cl.filter isFuncDef).length)).sum = 1
    ∧ cellHoneywell.head? =
        some (.funcDef "compile_to_gateset" compileToGatesetParams compileToGatesetBody) :=
  ⟨fun _ _ _ => rfl, by decide, by decide, by decide, rfl⟩

/-- Claim C3: as a set of unordered edges, the connectivity printed in
the topology-mapping cell's recorded output is exactly the 15-edge set of
the literal `coupling_graph` list passed to
`MachineModel(16, coupling_graph=coupling_graph)` in that same cell. -/
theorem starOutputMatchesModelCouplingGraph :
    sameEdgeSet starConnOutput coupling_graph = true
    ∧ starConnOutput.length = 15
    ∧ coupling_graph.length = 15
    ∧ starConnOutput.Nodup
    ∧ coupling_graph.Nodup
    ∧ cellTopology[1]? = some (.assign "model"
        (.call (.name "MachineModel") [.intLit 16]
          [("coupling_graph", .name "coupling_graph")])) :=
  ⟨by decide, by decide, by decide, by decide, by decide, rfl⟩

/-- Claim C4: the literal `toffoli` matrix is the Toffoli (CCX) unitary:
rows 0..5 equal the identity's rows, rows 6 and 7 are the identity's rows
7 and 6; it is a 0/1 matrix with exactly one 1 per row and per column; it
is unitary (its transpose is a two-sided inverse) and it is its own
inverse. -/
theorem toffoliIsCCXUnitary :
    toffoli.take 6 = identity8.take 6
    ∧ toffoli[6]? = identity8[7]?
    ∧ toffoli[7]? = identity8[6]?
    ∧ isZeroOneM toffoli = true
    ∧ oneOnePerRow toffoli = true
    ∧ oneOnePerRow (transposeM toffoli) = true
    ∧ matMul8 (transposeM toffoli) toffoli = identity8
    ∧ matMul8 toffoli (transposeM toffoli) = identity8
    ∧ matMul8 toffoli toffoli = identity8 := by
  decide

/-- Claim C5: the literal `coupling_graph` edge list is exactly the
two-star topology — the edges (0, i) for i in 1..7, (8, j) for j in
9..15, and the link (0, 8) — with 15 edges, all endpoints below 16, no
duplicates, no self-loops, and a connected graph on the 16 vertices. -/
theorem couplingGraphTwoLinkedStars :
    coupling_graph = twoStarEdges
    ∧ coupling_graph.length = 15
    ∧ coupling_graph.all
        (fun e => decide (e.1 < 16) && decide (e.2 < 16) && decide (e.1 ≠ e.2)) = true
    ∧ coupling_graph.Nodup
    ∧ connected16 coupling_graph = true := by
  decide

/-- Claim C6: the three platform-specific installation blocks of the
README run the identical package installations in the same order — an
upgraded pip, then jupyter and openfermion, then the prerelease
bqskit[ext] — and differ only in their remaining (environment setup)
commands. -/
theorem readmeInstallSequencesAgree :
    installSeq linuxIntelSetup = installSeq m1MacSetup
    ∧ installSeq m1MacSetup = installSeq windowsSetup
    ∧ installSeq linuxIntelSetup =
        ["python -m pip install --upgrade pip",
         "python -m pip install jupyter openfermion",
         "python -m pip install --pre \x27bqskit[ext]\x27"] := by
  decide

/-- Claim C7: every code cell of the notebook is straight-line (no loop,
no conditional, and no recursive function definition), and therefore the
in-order execution of the whole notebook terminates with a final state
under every interpretation of the third-party library as total
functions. -/
theorem notebookStraightLineTotal :
    notebookCells.all stmtsStraight = true
    ∧ notebookCells.all defsNonRecursive = true
    ∧ ∀ lib : Library, (runNotebook lib).isSome = true :=
  ⟨by decide, by decide, fun _ => rfl⟩

/-- Claim C8: in each gate-set-targeting example with a recorded output,
the gate names of the printed gate-count dictionary all belong to the
gate set passed to `MachineModel`, with `SXGate` printed as `SqrtXGate`
(this also holds for the fourth, multi-entangling-gate example). -/
theorem gateCountsWithinGateSets :
    countsWithinGateSet rigettiCounts rigettiGateSet = true
    ∧ countsWithinGateSet honeywellCounts honeywellGateSet = true
    ∧ countsWithinGateSet customCounts customGateSet = true
    ∧ countsWithinGateSet cirqCounts cirqGateSet = true := by
  decide

/-- Claim C9: after the Qiskit-import cell (the second code cell) binds
`circuit`, no later top-level statement assigns to `circuit`; every
assignment of a compile invocation binds `out_circuit` or
`toffoli_circuit`; hence under every library interpretation the value of
`circuit` at the end of the notebook equals its value right after the
Qiskit-import cell, and that is the value the exporting cell passes to
`save` and to `bqskit_to_qiskit`. -/
theorem circuitNeverRebound :
    (notebookCells.drop 2).all (fun c => c.all (fun s => !(assignsTo "circuit" s))) = true
    ∧ notebookCells.all (fun c => c.all compileResultsFreshlyBound) = true
    ∧ (∀ lib : Library, valueAfter lib 17 "circuit" = valueAfter lib 2 "circuit")
    ∧ valueAfter freeLib 17 "circuit" = some inputCircuitVal
    ∧ cellExport[2]? = some (.assign "qc"
        (.call (.name "bqskit_to_qiskit") [.name "circuit"] [])) :=
  ⟨by decide, by decide, fun _ => rfl, rfl, rfl⟩

/-- Claim C10: every edge of the literal `coupling_graph` list and of
every recorded CouplingGraph console output (the chain connectivity,
printed three times, and the star connectivity) is an ordered pair with
the smaller qubit index first; in particular no edge is a self-loop. -/
theorem notebookEdgesOrderedSmallFirst :
    (chainConnOutput ++ starConnOutput ++ coupling_graph).all
      (fun e => decide (e.1 < e.2)) = true := by
  decide
